import Mathlib

/-!
Shallow embedding of the connection-lifecycle core of the fb-bot repository
(`src/lib/fca-unofficial/src/api/socket/listenMqtt.js`,
`src/lib/fca-unofficial/src/api/socket/core/getSeqID.js`,
`src/lib/fca-unofficial/src/api/socket/core/emitAuth.js`, and the MQTT
connection handler factory `createListenMqtt` found in `src/unnamed/part_001`).

The JavaScript core is single-threaded and event driven: every piece of work
is a callback (timer firing, transport signal, HTTP completion, incoming
frame, public API call).  We embed each callback as a pure function from an
explicit session state (`St`, mirroring the mutable `ctx` object plus the
facade's `_stopped` flag and timer bookkeeping) to a new state together with a
trace of observable actions (`Act`: emitted lifecycle/domain events, timer
scheduling and clearing, transport operations, callback invocations).
Asynchronous continuation chains whose intermediate completions carry no
decision (e.g. `unsubAll(() => endQuietly(() => ...))`) are composed
sequentially inside one step, matching the cooperative single-threaded model
described by the repository; independently scheduled timers and in-flight
HTTP completions remain separate steps so that interleavings with
`stopListening` are expressible.

JavaScript values appearing in frame payloads are modelled by the inductive
type `Json`; a frame's payload is an `Option Json`, where `none` stands for a
payload whose `JSON.parse` failed (the handler's inner catch turns that into
the empty object, which we reproduce).  JS truthiness, string coercion,
`parseInt`, and case-insensitive regex matching by literal substrings are
modelled explicitly below.
-/

/-- JavaScript value as it appears in decoded MQTT frame payloads. -/
inductive Json where
  | null : Json
  | bool (b : Bool) : Json
  | num (n : Int) : Json
  | str (s : String) : Json
  | arr (xs : List Json) : Json
  | obj (fields : List (String × Json)) : Json
deriving Repr

/-- JS `Map` key equality (SameValueZero): primitives compare by value;
objects and arrays compare by reference identity, so a value freshly decoded
from a frame is never equal to a stored structured key — modelled as `false`
for structured values. -/
def Json.beq : Json → Json → Bool
  | .null, .null => true
  | .bool a, .bool b => a == b
  | .num a, .num b => a == b
  | .str a, .str b => a == b
  | _, _ => false

instance : BEq Json := ⟨Json.beq⟩

/-- Field access `j.k` on a JS value: `none` models `undefined`. -/
def Json.get : Json → String → Option Json
  | .obj fields, k => (fields.find? (fun f => f.1 == k)).map (fun f => f.2)
  | _, _ => none

/-- JS truthiness of a value. -/
def Json.truthy : Json → Bool
  | .null => false
  | .bool b => b
  | .num n => n != 0
  | .str s => s != ""
  | .arr _ => true
  | .obj _ => true

/-- JS truthiness of a possibly-`undefined` value (`none` = `undefined`). -/
def jsTruthy (v : Option Json) : Bool :=
  match v with
  | none => false
  | some j => j.truthy

/-- JS `String(v)` coercion (the cases the core can reach). -/
def Json.coerceString : Json → String
  | .null => "null"
  | .bool b => if b then "true" else "false"
  | .num n => toString n
  | .str s => s
  | .arr _ => ""
  | .obj _ => "[object Object]"

/-- JS string coercion of a possibly-`undefined` value. -/
def coerceStringOpt (v : Option Json) : String :=
  match v with
  | none => "undefined"
  | some j => j.coerceString

/-- Leading-digit scan used by `jsParseInt`. -/
def takeDigits : List Char → List Char
  | [] => []
  | c :: cs => if c.isDigit then c :: takeDigits cs else []

/-- JS `parseInt` on a string: skips leading whitespace, reads an optional
sign and leading decimal digits; `none` models `NaN`. -/
def jsParseInt (s : String) : Option Int :=
  let cs := s.toList.dropWhile (fun c => c == ' ' || c == '\t' || c == '\n')
  let signed : Bool × List Char :=
    match cs with
    | '-' :: rest => (true, rest)
    | '+' :: rest => (false, rest)
    | rest => (false, rest)
  let ds := takeDigits signed.2
  if ds.isEmpty then none
  else
    let m : Nat := ds.foldl (fun acc c => acc * 10 + (c.toNat - 48)) 0
    some (if signed.1 then -(m : Int) else (m : Int))

/-- `pat` occurs as a contiguous sublist of `hay`. -/
def charsInfix (pat hay : List Char) : Bool :=
  match hay with
  | [] => pat.isEmpty
  | _ :: t => List.isPrefixOf pat hay || charsInfix pat t

/-- Case-insensitive substring containment: models the core's
case-insensitive regexes, all of which are alternations of literal
substrings. -/
def icontains (hay pat : String) : Bool :=
  charsInfix (pat.toList.map Char.toLower) (hay.toList.map Char.toLower)

/-- `/Not logged in/i` (getSeqID catch, post guard, transport error handler). -/
def matchNotLoggedIn (msg : String) : Bool := icontains msg "Not logged in"

/-- `/blocked the login/i` (getSeqID catch, post guard, transport error
handler). -/
def matchBlockedTheLogin (msg : String) : Bool := icontains msg "blocked the login"

/-- `/blocked/i`, the reason selector used by the post guard and the transport
error handler. -/
def matchBlocked (msg : String) : Bool := icontains msg "blocked"

/-- `/Not logged in|blocked the login/i` of `installPostGuard`. -/
def postGuardPattern (msg : String) : Bool :=
  matchNotLoggedIn msg || matchBlockedTheLogin msg

/-- `/Not logged in|Not logged in.|blocked the login|401|403/i` of the
transport error handler (the second alternative is subsumed by the first). -/
def transportAuthPattern (msg : String) : Bool :=
  matchNotLoggedIn msg || matchBlockedTheLogin msg ||
    icontains msg "401" || icontains msg "403"

/-- `/No subscription existed|client disconnecting/i`, the benign shutdown
signatures swallowed by the transport error handler while ending/cycling. -/
def benignShutdownPattern (msg : String) : Bool :=
  icontains msg "No subscription existed" || icontains msg "client disconnecting"

/-- Modelled from the spec: `formatID` (imported from `utils/format`, whose
source is not part of the repository snapshot) produces a "normalized thread
identifier"; the spec treats the normalization as opaque and no claim depends
on it, so it is modelled as the identity on strings. -/
def formatID (s : String) : String := s

/-- Drop JSON insignificant whitespace. -/
def skipWs (cs : List Char) : List Char :=
  cs.dropWhile (fun c => c == ' ' || c == '\t' || c == '\n' || c == '\r')

/-- Characters of a JSON string literal up to the closing quote (escape
sequences are not modelled and yield a parse failure; no payload in any claim
uses them). -/
def parseStrChars : List Char → Option (List Char × List Char)
  | [] => none
  | '"' :: rest => some ([], rest)
  | '\\' :: _ => none
  | c :: rest => (parseStrChars rest).map (fun p => (c :: p.1, p.2))

/-- Natural number denoted by a digit list. -/
def digitsVal (ds : List Char) : Nat :=
  ds.foldl (fun acc c => acc * 10 + (c.toNat - 48)) 0

mutual

/-- Fuel-indexed recursive-descent JSON value parser modelling `JSON.parse`
(integers only; floats and escapes yield failure, which no claim exercises). -/
def parseVal : Nat → List Char → Option (Json × List Char)
  | 0, _ => none
  | Nat.succ fuel, cs0 =>
    match skipWs cs0 with
    | 'n' :: 'u' :: 'l' :: 'l' :: rest => some (.null, rest)
    | 't' :: 'r' :: 'u' :: 'e' :: rest => some (.bool true, rest)
    | 'f' :: 'a' :: 'l' :: 's' :: 'e' :: rest => some (.bool false, rest)
    | '"' :: rest =>
        (parseStrChars rest).map (fun p => (.str (String.mk p.1), p.2))
    | '[' :: rest => (parseElems fuel rest).map (fun p => (.arr p.1, p.2))
    | '{' :: rest => (parseFields fuel rest).map (fun p => (.obj p.1, p.2))
    | '-' :: rest =>
        let ds := takeDigits rest
        if ds.isEmpty then none
        else some (.num (-(digitsVal ds : Int)), rest.drop ds.length)
    | cs =>
        let ds := takeDigits cs
        if ds.isEmpty then none
        else some (.num (digitsVal ds : Int), cs.drop ds.length)

/-- Elements of a JSON array after the opening bracket. -/
def parseElems : Nat → List Char → Option (List Json × List Char)
  | 0, _ => none
  | Nat.succ fuel, cs =>
    match skipWs cs with
    | ']' :: rest => some ([], rest)
    | cs1 =>
      match parseVal fuel cs1 with
      | none => none
      | some (v, cs2) =>
        match skipWs cs2 with
        | ',' :: cs3 =>
          (match skipWs cs3 with
           | ']' :: _ => none
           | cs4 => (parseElems fuel cs4).map (fun p => (v :: p.1, p.2)))
        | ']' :: rest => some ([v], rest)
        | _ => none

/-- Fields of a JSON object after the opening brace. -/
def parseFields : Nat → List Char → Option (List (String × Json) × List Char)
  | 0, _ => none
  | Nat.succ fuel, cs =>
    match skipWs cs with
    | '}' :: rest => some ([], rest)
    | '"' :: cs1 =>
      match parseStrChars cs1 with
      | none => none
      | some (key, cs2) =>
        match skipWs cs2 with
        | ':' :: cs3 =>
          match parseVal fuel cs3 with
          | none => none
          | some (v, cs4) =>
            match skipWs cs4 with
            | ',' :: cs5 =>
              (match skipWs cs5 with
               | '}' :: _ => none
               | cs6 =>
                 (parseFields fuel cs6).map
                   (fun p => ((String.mk key, v) :: p.1, p.2)))
            | '}' :: rest => some ([(String.mk key, v)], rest)
            | _ => none
        | _ => none
    | _ => none

end

/-- `JSON.parse` on a string: `none` models a thrown `SyntaxError`. -/
def jsonParse (s : String) : Option Json :=
  match parseVal (2 * s.length + 2) s.toList with
  | some (v, rest) => if (skipWs rest).isEmpty then some v else none
  | none => none

/-- JS `Number(...)` coercion restricted to the integral cases the presence
handler can hit (`none` models `NaN`). -/
def jsToNumber (v : Option Json) : Option Int :=
  match v with
  | none => none
  | some .null => some 0
  | some (.bool b) => some (if b then 1 else 0)
  | some (.num n) => some n
  | some (.str s) =>
      let t := s.trim
      if t.isEmpty then some 0 else jsParseInt t |>.bind
        (fun n => if (takeDigits (t.toList.dropWhile (fun c => c == '-'))).length
                      + (if t.front == '-' then 1 else 0) == t.length
                  then some n else none)
  | some (.arr _) => none
  | some (.obj _) => none

/-- Transport handle status: `off` models `ctx.mqttClient === undefined` (or a
dead client), `connecting` a constructed client whose connect event has not
yet fired, `connected` `ctx.mqttClient.connected === true`. -/
inductive TransportSt where
  | off
  | connecting
  | connected
deriving Repr, DecidableEq, BEq

/-- Timers the core creates.  `autoCycle` is the forced-cycle interval,
`reconnect` the tracked `ctx._reconnectTimer`, `syncAck` the tracked
`ctx._rTimeout`, and `untrackedReconnect` the bare `setTimeout` created by
`delayedReconnect` (and by `getSeqIDWrapper`'s retry path), which is stored in
no context field. -/
inductive TimerKind where
  | autoCycle
  | reconnect
  | syncAck
  | untrackedReconnect
deriving Repr, DecidableEq, BEq

/-- One entry of the Pending Task Table (`ctx.tasks`): the recorded task kind
and its completion callback, identified by a number since functions have no
useful equality. -/
structure TaskEntry where
  type : String
  callback : Nat
deriving Repr

/-- Argument with which a stored task callback is invoked. -/
inductive CbArg where
  | errSentinel
  | okResult (type : String) (reqID : Json) (data : Json)
deriving Repr

/-- Lifecycle and domain events emitted on the public emitter.  `errorEv`
carries a tag recording which surface produced it (`seq_id_error` for the
bootstrap catch, `mqtt_error` for the transport error handler, and
`handler_error` for the message handler's catch-all) plus the error text;
`fatalEv` carries the payload's `type` field, its `reason` field (empty for
`connection_refused`, which has none) and its error text. -/
inductive Ev where
  | connected
  | ready
  | closed
  | reconnecting (attempt : Nat)
  | disconnected (reason : String) (willRetry : Bool)
  | errorEv (tag : String) (detail : String)
  | fatalEv (type : String) (reason : String) (detail : String)
  | typingEv (isTyping : Bool) (sender : String) (threadID : String)
  | presenceEv (userID : String) (timestamp : Option Int) (statuses : Option Json)
  | friendReqReceived (actorFbId : String)
  | friendReqCancel (actorFbId : String)
deriving Repr

/-- Observable actions of one callback execution.  Logging is presentation
only (explicitly out of scope in the spec) and is not recorded. -/
inductive Act where
  | ev (e : Ev)
  | subscribeTopics
  | unsubscribeAll
  | publish (topic : String)
  | endTransport
  | removeAllListeners
  | startConnect
  | issueBootstrap
  | setTimer (t : TimerKind)
  | clearTimer (t : TimerKind)
  | cbStop
  | cbTask (callback : Nat) (arg : CbArg)
  | parseDeltaCall (delta : Json)
deriving Repr

abbrev Trace := List Act

/-- Stored inbox cursor `ctx.lastSeqId`: any JS value (initially `null`,
later the GraphQL sequence id, a frame's `firstDeltaSeqId`, or the integer
produced by `parseInt`), or `NaN` when `parseInt` fails. -/
inductive Cursor where
  | js (v : Json)
  | nan
deriving Repr

/-- The session state: the `ctx` fields the socket core reads and writes,
the facade's `_stopped` flag, timer bookkeeping, and the caller-fixed
configuration (`ctx._mqttOpt` merged with `ctx.globalOptions`). -/
structure St where
  lastSeqId : Cursor := .js .null
  syncToken : Option Json := none
  reconnectAttempts : Nat := 0
  ending : Bool := false
  cycling : Bool := false
  tMqttCalled : Bool := false
  loggedIn : Bool := true
  tasks : List (Json × TaskEntry) := []
  tmsWaitSet : Bool := false
  reconnectTimer : Bool := false
  rTimeout : Bool := false
  autoCycleTimer : Bool := false
  untrackedTimers : Nat := 0
  bootstrapInFlight : Nat := 0
  transport : TransportSt := .off
  stopped : Bool := false
  autoReconnect : Bool := true
  reconnectAfterStop : Bool := false
  emitReady : Bool := false
  updatePresence : Bool := false
deriving Repr

/-- `emitAuth` (core/emitAuth.js): clears the forced-cycle, reconnect and
sync-ack timers, marks the session ending and not cycling, force-ends and
drops the transport, marks logged out, purges the Pending Task Table and
emits the `fatal` lifecycle event.  It does NOT touch `lastSeqId`,
`syncToken` or `_reconnectAttempts`. -/
def emitAuthFn (reason msg : String) (st : St) : St × Trace :=
  ({ st with autoCycleTimer := false, reconnectTimer := false, ending := true,
             cycling := false, transport := .off, loggedIn := false,
             rTimeout := false, tasks := [] },
   (if st.autoCycleTimer then [Act.clearTimer .autoCycle] else []) ++
   (if st.reconnectTimer then [Act.clearTimer .reconnect] else []) ++
   (if st.transport ≠ .off then
      [Act.removeAllListeners] ++
        (if st.transport = .connected then [Act.endTransport] else [])
    else []) ++
   (if st.rTimeout then [Act.clearTimer .syncAck] else []) ++
   [Act.ev (.fatalEv "auth_error" reason (if msg == "" then reason else msg))])

/-- `scheduleReconnect` (part_001 lines 35-55): re-entrancy guarded by the
tracked timer and the ending flag; increments the attempt counter, emits
`reconnecting` with the incremented value and schedules the tracked timer. -/
def scheduleReconnectFn (st : St) : St × Trace :=
  if st.reconnectTimer then (st, [])
  else if st.ending then (st, [])
  else
    ({ st with reconnectAttempts := st.reconnectAttempts + 1,
               reconnectTimer := true },
     [Act.ev (.reconnecting (st.reconnectAttempts + 1)), Act.setTimer .reconnect])

/-- `connectMqtt` (part_001, body of the returned `listenMqtt`): constructs a
fresh client and registers its handlers; the connect event fires later. -/
def connectMqttFn (st : St) : St × Trace :=
  ({ st with transport := .connecting }, [Act.startConnect])

/-- The tracked reconnect timer fires (part_001 lines 49-54): clears itself
and, unless ending, re-runs `connectMqtt`. -/
def reconnectTimerFireFn (st : St) : St × Trace :=
  if !st.reconnectTimer then (st, [])
  else
    let st1 := { st with reconnectTimer := false }
    if st1.ending then (st1, []) else connectMqttFn st1

/-- `endQuietly` (listenMqtt.js lines 214-270): publishes `/browser_close`
when connected, force-ends the transport, then `finish` drops the client,
resets `lastSeqId`, `syncToken`, `t_mqttCalled`, the ending/cycling flags and
the attempt counter, clears the tracked reconnect and sync-ack timers and
purges the Pending Task Table. -/
def endQuietlyFn (st : St) : St × Trace :=
  ({ st with transport := .off, lastSeqId := .js .null, syncToken := none,
             tMqttCalled := false, ending := false, cycling := false,
             reconnectAttempts := 0, reconnectTimer := false, rTimeout := false,
             tasks := [] },
   (if st.transport ≠ .off then
      (if st.transport = .connected then [Act.publish "/browser_close"] else []) ++
        [Act.endTransport, Act.removeAllListeners]
    else []) ++
   (if st.reconnectTimer then [Act.clearTimer .reconnect] else []) ++
   (if st.rTimeout then [Act.clearTimer .syncAck] else []))

/-- `delayedReconnect` (listenMqtt.js lines 276-282): unconditionally
increments the attempt counter, emits `reconnecting` and schedules a bare
`setTimeout` that is stored in no context field. -/
def delayedReconnectFn (st : St) : St × Trace :=
  ({ st with reconnectAttempts := st.reconnectAttempts + 1,
             untrackedTimers := st.untrackedTimers + 1 },
   [Act.ev (.reconnecting (st.reconnectAttempts + 1)),
    Act.setTimer .untrackedReconnect])

/-- `getSeqIDWrapper` (listenMqtt.js lines 117-157) up to the point where the
bootstrap POST is issued: skipped when ending and not cycling; `getSeqID`
synchronously resets `t_mqttCalled` before posting. -/
def getSeqIDWrapperFn (st : St) : St × Trace :=
  if st.ending && !st.cycling then (st, [])
  else ({ st with tMqttCalled := false,
                  bootstrapInFlight := st.bootstrapInFlight + 1 },
        [Act.issueBootstrap])

/-- The bare `setTimeout` created by `delayedReconnect` fires: it calls
`getSeqIDWrapper` with no ending check of its own. -/
def untrackedReconnectFireFn (st : St) : St × Trace :=
  if st.untrackedTimers = 0 then (st, [])
  else getSeqIDWrapperFn { st with untrackedTimers := st.untrackedTimers - 1 }

/-- Outcome of the bootstrap POST as classified by `getSeqID`
(core/getSeqID.js): a found `sync_sequence_id`, an empty-but-successful
response (early return), or a failure with the message text built by the
catch handler. -/
inductive BootstrapRes where
  | okSeq (seqId : String)
  | emptyOk
  | fail (msg : String)
deriving Repr

/-- Completion of the bootstrap POST: the composed effect of `getSeqID`'s
`.then`/`.catch` (core/getSeqID.js lines 27-61) followed by
`getSeqIDWrapper`'s `.then` (listenMqtt.js lines 139-142), which always runs
because `getSeqID`'s internal catch returns normally, resolving the promise:
the wrapper's `.catch` retry path (lines 143-156) is therefore unreachable
for failures raised inside `getSeqID`.  On success the cursor is stored and
`connectMqtt` is invoked with no ending check; on failure `emitAuth` is
invoked for every classification, including the `auth_error` fallback that
follows the non-fatal `error` event. -/
def bootstrapDoneFn (r : BootstrapRes) (st : St) : St × Trace :=
  if st.bootstrapInFlight = 0 then (st, [])
  else
    let st0 := { st with bootstrapInFlight := st.bootstrapInFlight - 1 }
    match r with
    | .okSeq s =>
        let p := connectMqttFn { st0 with lastSeqId := .js (.str s) }
        ({ p.1 with cycling := false }, p.2)
    | .emptyOk => ({ st0 with cycling := false }, [])
    | .fail msg =>
        if matchNotLoggedIn msg then
          let p := emitAuthFn "not_logged_in" msg st0
          ({ p.1 with cycling := false }, p.2)
        else if matchBlockedTheLogin msg then
          let p := emitAuthFn "login_blocked" msg st0
          ({ p.1 with cycling := false }, p.2)
        else
          let p := emitAuthFn "auth_error" msg st0
          ({ p.1 with cycling := false },
           Act.ev (.errorEv "seq_id_error" msg) :: p.2)

/-- The transport's `connect` event (part_001 lines 195-259): clears the
cycling flag, resets the attempt counter to zero, subscribes the fixed topic
set, publishes the queue-sync request (resume vs. create chosen by the sync
token's truthiness), the foreground-state and client-settings messages,
starts the sync-ack timer and installs `tmsWait`.  The public `connected`
event is NOT emitted here. -/
def transportConnectFn (st : St) : St × Trace :=
  if st.transport ≠ .connecting then (st, [])
  else
    ({ st with transport := .connected, cycling := false,
               reconnectAttempts := 0, rTimeout := true, tmsWaitSet := true },
     [Act.subscribeTopics,
      Act.publish (if jsTruthy st.syncToken then "/messenger_sync_get_diffs"
                   else "/messenger_sync_create_queue"),
      Act.publish "/foreground_state",
      Act.publish "/set_client_settings",
      Act.setTimer .syncAck])

/-- The sync-ack timer fires (part_001 lines 226-240): a no-op when ending;
otherwise force-ends the transport, emits `disconnected("sync_timeout",
true)` and schedules a reconnect. -/
def rTimeoutFireFn (st : St) : St × Trace :=
  if !st.rTimeout then (st, [])
  else
    let st1 := { st with rTimeout := false }
    if st1.ending then (st1, [])
    else
      let endActs := if st1.transport = .connected then [Act.endTransport] else []
      let st2 := { st1 with transport :=
        if st1.transport = .connected then .off else st1.transport }
      let p := scheduleReconnectFn st2
      (p.1, endActs ++ [Act.ev (.disconnected "sync_timeout" true)] ++ p.2)

/-- The transport's `error` event (part_001 lines 148-192): benign shutdown
signatures are swallowed while ending or cycling; auth signatures force-end
the transport and invoke `emitAuth` with the `/blocked/i`-selected reason;
anything else emits a non-fatal `error`, force-ends the transport and either
schedules a reconnect or emits `disconnected(..., false)` plus a
`connection_refused` fatal when auto-reconnect is off. -/
def transportErrorFn (msg : String) (st : St) : St × Trace :=
  if (st.ending || st.cycling) && benignShutdownPattern msg then (st, [])
  else if transportAuthPattern msg then
    let endActs := if st.transport = .connected then [Act.endTransport] else []
    let st1 := { st with transport :=
      if st.transport = .connected then .off else st.transport }
    let p := emitAuthFn (if matchBlocked msg then "login_blocked" else "not_logged_in")
               msg st1
    (p.1, endActs ++ p.2)
  else
    let errActs := [Act.ev (.errorEv "mqtt_error" msg)]
    let endActs := if st.transport = .connected then [Act.endTransport] else []
    let st1 := { st with transport :=
      if st.transport = .connected then .off else st.transport }
    if st1.ending || st1.cycling then (st1, errActs ++ endActs)
    else if st1.autoReconnect && !st1.ending then
      let p := scheduleReconnectFn st1
      (p.1, errActs ++ endActs ++
        [Act.ev (.disconnected (if msg == "" then "connection_error" else msg) true)]
        ++ p.2)
    else
      (st1, errActs ++ endActs ++
        [Act.ev (.disconnected (if msg == "" then "connection_error" else msg) false),
         Act.ev (.fatalEv "connection_refused" ""
           (if msg == "" then "Connection refused" else msg))])

/-- The transport's `close` event (part_001 lines 338-352): swallowed while
ending or cycling; otherwise emits `disconnected("connection_closed", ...)`
and schedules a reconnect when auto-reconnect is enabled. -/
def transportCloseFn (st : St) : St × Trace :=
  let st1 := { st with transport := .off }
  if st1.ending || st1.cycling then (st1, [])
  else if st1.autoReconnect && !st1.ending then
    let p := scheduleReconnectFn st1
    (p.1, [Act.ev (.disconnected "connection_closed" true)] ++ p.2)
  else (st1, [Act.ev (.disconnected "connection_closed" false)])

/-- The transport's `disconnect` event (part_001 lines 355-369): identical to
`close` with reason `"disconnected"`, without the connection necessarily
being torn down. -/
def transportDisconnectFn (st : St) : St × Trace :=
  if st.ending || st.cycling then (st, [])
  else if st.autoReconnect && !st.ending then
    let p := scheduleReconnectFn st
    (p.1, [Act.ev (.disconnected "disconnected" true)] ++ p.2)
  else (st, [Act.ev (.disconnected "disconnected" false)])

/-- The forced-cycle interval fires, running `forceCycle` (listenMqtt.js
lines 288-298): re-entrancy guarded by the cycling flag; sets cycling and
ending, emits `disconnected("cycle", true)`, then
`unsubAll -> endQuietly -> delayedReconnect`. -/
def forceCycleFn (st : St) : St × Trace :=
  if !st.autoCycleTimer then (st, [])
  else if st.cycling then (st, [])
  else
    let p1 := endQuietlyFn { st with cycling := true, ending := true }
    let p2 := delayedReconnectFn p1.1
    (p2.1, [Act.ev (.disconnected "cycle" true), Act.unsubscribeAll] ++ p1.2 ++ p2.2)

/-- `MessageEmitter.stopListening` (listenMqtt.js lines 352-382): the second
call is a warning no-op that still invokes the callback (asynchronously);
the first call clears the forced-cycle and tracked reconnect timers, sets the
ending flag, then `unsubAll -> endQuietly`, emits `closed`, invokes the
callback, and when `reconnectAfterStop` is configured runs
`delayedReconnect`. -/
def stopListeningFn (st : St) : St × Trace :=
  if st.stopped then (st, [Act.cbStop])
  else
    let preActs :=
      (if st.autoCycleTimer then [Act.clearTimer .autoCycle] else []) ++
      (if st.reconnectTimer then [Act.clearTimer .reconnect] else [])
    let st1 := { st with stopped := true, autoCycleTimer := false,
                         reconnectTimer := false, ending := true }
    let p1 := endQuietlyFn st1
    if st1.reconnectAfterStop then
      let p2 := delayedReconnectFn p1.1
      (p2.1, preActs ++ [Act.unsubscribeAll] ++ p1.2 ++
             [Act.ev .closed, Act.cbStop] ++ p2.2)
    else
      (p1.1, preActs ++ [Act.unsubscribeAll] ++ p1.2 ++ [Act.ev .closed, Act.cbStop])

/-- Rejection of a guarded HTTP post (`installPostGuard`, listenMqtt.js lines
88-111): auth-matching messages invoke `emitAuth` with the
`/blocked/i`-selected reason; the error is then rethrown to the caller either
way. -/
def postGuardRejectFn (msg : String) (st : St) : St × Trace :=
  if postGuardPattern msg then
    emitAuthFn (if matchBlocked msg then "login_blocked" else "not_logged_in") msg st
  else (st, [])

/-- `ctx.tmsWait` (installed by the connect handler): clears the sync-ack
timer, emits the public `connected` event (plus `ready` when configured) and
uninstalls itself.  Run at the top of every `/t_ms` frame while installed. -/
def tmsWaitFn (st : St) : St × Trace :=
  if st.tmsWaitSet then
    ({ st with tmsWaitSet := false, rTimeout := false },
     (if st.rTimeout then [Act.clearTimer .syncAck] else []) ++
     [Act.ev .connected] ++ (if st.emitReady then [Act.ev .ready] else []))
  else (st, [])

/-- Cursor value stored by `ctx.lastSeqId = parseInt(...)`. -/
def parseIntCursor (s : String) : Cursor :=
  match jsParseInt s with
  | some n => .js (.num n)
  | none => .nan

/-- `for (const x of v)` over a JS value: `some` gives the iterated items
(arrays yield elements, strings yield single-character strings), `none`
models a thrown TypeError for non-iterable values. -/
def jsIterate : Json → Option (List Json)
  | .arr xs => some xs
  | .str s => some (s.toList.map (fun c => Json.str (String.mk [c])))
  | _ => none

/-- The body of the `mqttClient.on("message")` handler after payload
decoding (part_001 lines 273-330), with JS exceptions made explicit: the
result carries the state updates and actions performed before any throw, and
`some e` in the last component models an exception reaching the outer catch.
`g` is the `getTaskResponseData` decoder, a collaborator whose source is not
in the repository snapshot (modelled from the spec as an arbitrary
kind-directed decoder returning `none` exactly on decode failure).
`parseDelta` is likewise external; the spec specifies it as a pure function
of one delta record with read-only context access, so each delta is recorded
as a `parseDeltaCall` action with no state change. -/
def handleFrameBody (g : String → Json → Option Json)
    (topic : String) (j : Json) (st : St) : St × Trace × Option String :=
  if j.get "type" == some (Json.str "jewel_requests_add") then
    match j.get "from" with
    | none => (st, [], some "TypeError: from is undefined")
    | some Json.null => (st, [], some "TypeError: from is null")
    | some v => (st, [Act.ev (.friendReqReceived v.coerceString)], none)
  else if j.get "type" == some (Json.str "jewel_requests_remove_old") then
    match j.get "from" with
    | none => (st, [], some "TypeError: from is undefined")
    | some Json.null => (st, [], some "TypeError: from is null")
    | some v => (st, [Act.ev (.friendReqCancel v.coerceString)], none)
  else if topic == "/t_ms" then
    let p0 := tmsWaitFn st
    let st1 :=
      if jsTruthy (j.get "firstDeltaSeqId") && jsTruthy (j.get "syncToken") then
        { p0.1 with lastSeqId := .js ((j.get "firstDeltaSeqId").getD .null),
                    syncToken := j.get "syncToken" }
      else p0.1
    let st2 :=
      if jsTruthy (j.get "lastIssuedSeqId") then
        { st1 with lastSeqId := parseIntCursor (coerceStringOpt (j.get "lastIssuedSeqId")) }
      else st1
    if jsTruthy (j.get "deltas") then
      match jsIterate ((j.get "deltas").getD .null) with
      | some ds => (st2, p0.2 ++ ds.map (fun d => Act.parseDeltaCall d), none)
      | none => (st2, p0.2, some "TypeError: deltas is not iterable")
    else (st2, p0.2, none)
  else if topic == "/thread_typing" || topic == "/orca_typing_notifications" then
    match j.get "sender_fbid" with
    | none => (st, [], some "TypeError: sender_fbid is undefined")
    | some Json.null => (st, [], some "TypeError: sender_fbid is null")
    | some v =>
        let tv := if jsTruthy (j.get "thread") then (j.get "thread").getD .null else v
        (st, [Act.ev (.typingEv (jsTruthy (j.get "state")) v.coerceString
               (formatID tv.coerceString))], none)
  else if topic == "/orca_presence" then
    if !st.updatePresence then
      if jsTruthy (j.get "list") then
        match jsIterate ((j.get "list").getD .null) with
        | some ds =>
            (st, ds.map (fun d => Act.ev (.presenceEv (coerceStringOpt (d.get "u"))
                   ((jsToNumber (d.get "l")).map (fun n => n * 1000))
                   (d.get "p"))), none)
        | none => (st, [], some "TypeError: list is not iterable")
      else (st, [], none)
    else (st, [], none)
  else if topic == "/ls_resp" then
    match jsonParse (coerceStringOpt (j.get "payload")) with
    | none => (st, [], some "SyntaxError: unexpected token in JSON")
    | some parsed =>
        match j.get "request_id" with
        | none => (st, [], none)
        | some reqID =>
            match st.tasks.find? (fun e => Json.beq e.1 reqID) with
            | none => (st, [], none)
            | some e =>
                match g e.2.type parsed with
                | none => (st, [Act.cbTask e.2.callback .errSentinel], none)
                | some d =>
                    (st, [Act.cbTask e.2.callback (.okResult e.2.type reqID d)], none)
  else (st, [], none)

/-- The full `mqttClient.on("message")` handler (part_001 lines 262-335):
no-op while ending; the payload's `JSON.parse` failure (`payload = none`)
degrades to the empty object via the inner catch; any exception from the body
is absorbed by the outer catch, which emits a non-fatal `error` event, so the
handler never throws and never terminates the connection. -/
def handleFrameFn (g : String → Json → Option Json)
    (topic : String) (payload : Option Json) (st : St) : St × Trace :=
  if st.ending then (st, [])
  else
    let r := handleFrameBody g topic (payload.getD (Json.obj [])) st
    match r.2.2 with
    | none => (r.1, r.2.1)
    | some e => (r.1, r.2.1 ++ [Act.ev (.errorEv "handler_error" e)])

/-- An atomic callback execution of the single-threaded core. -/
inductive Step where
  | bootstrapDone (r : BootstrapRes)
  | transportConnect
  | transportError (msg : String)
  | transportClose
  | transportDisconnect
  | msgFrame (topic : String) (payload : Option Json)
  | reconnectTimerFire
  | untrackedReconnectFire
  | rTimeoutFire
  | cycleTimerFire
  | stopListeningCall
  | postGuardReject (msg : String)
deriving Repr

/-- One step of the core.  `g` is the external `getTaskResponseData`
decoder. -/
def exec (g : String → Json → Option Json) : Step → St → St × Trace
  | .bootstrapDone r, st => bootstrapDoneFn r st
  | .transportConnect, st => transportConnectFn st
  | .transportError msg, st => transportErrorFn msg st
  | .transportClose, st => transportCloseFn st
  | .transportDisconnect, st => transportDisconnectFn st
  | .msgFrame topic payload, st => handleFrameFn g topic payload st
  | .reconnectTimerFire, st => reconnectTimerFireFn st
  | .untrackedReconnectFire, st => untrackedReconnectFireFn st
  | .rTimeoutFire, st => rTimeoutFireFn st
  | .cycleTimerFire, st => forceCycleFn st
  | .stopListeningCall, st => stopListeningFn st
  | .postGuardReject msg, st => postGuardRejectFn msg st

/-- Run a list of steps, accumulating the trace. -/
def run (g : String → Json → Option Json) : List Step → St → St × Trace
  | [], st => (st, [])
  | s :: rest, st =>
      let p := exec g s st
      let q := run g rest p.1
      (q.1, p.2 ++ q.2)

/-- The body of the public `listenMqtt()` facade call (listenMqtt.js lines
337-452) on a fresh session: resets the attempt counter, clears the cursor
and token, arms the forced-cycle interval when `cycleMs > 0`, and issues the
first bootstrap via `getSeqIDWrapper`. -/
def startListening (autoRe recAfter ready pres cycleOn : Bool) : St × Trace :=
  let st : St :=
    { lastSeqId := .js .null, syncToken := none, tMqttCalled := false,
      reconnectAttempts := 0, autoCycleTimer := cycleOn,
      autoReconnect := autoRe, reconnectAfterStop := recAfter,
      emitReady := ready, updatePresence := pres }
  let p := getSeqIDWrapperFn st
  (p.1, (if cycleOn then [Act.setTimer .autoCycle] else []) ++ p.2)

/-- Trivial instantiation of the external task-response decoder, used by
concrete witnesses. -/
def gNone : String → Json → Option Json := fun _ _ => none

/-- Is this action the emission of a `reconnecting` event (optionally with a
given attempt value)? -/
def isReconnecting : Act → Bool
  | .ev (.reconnecting _) => true
  | _ => false

def reconnectingArgs : Trace → List Nat
  | [] => []
  | .ev (.reconnecting n) :: tr => n :: reconnectingArgs tr
  | _ :: tr => reconnectingArgs tr

def isFatal : Act → Bool
  | .ev (.fatalEv _ _ _) => true
  | _ => false

def fatalReasons : Trace → List String
  | [] => []
  | .ev (.fatalEv _ r _) :: tr => r :: fatalReasons tr
  | _ :: tr => fatalReasons tr

def isErrorEv : Act → Bool
  | .ev (.errorEv _ _) => true
  | _ => false

def isConnectedEv : Act → Bool
  | .ev .connected => true
  | _ => false

def isClosedEv : Act → Bool
  | .ev .closed => true
  | _ => false

def isCbStop : Act → Bool
  | .cbStop => true
  | _ => false

def isStartConnect : Act → Bool
  | .startConnect => true
  | _ => false

def isEndTransport : Act → Bool
  | .endTransport => true
  | _ => false

def isIssueBootstrap : Act → Bool
  | .issueBootstrap => true
  | _ => false

def isSetTimer : Act → Bool
  | .setTimer _ => true
  | _ => false

def cbTaskCalls (tr : Trace) : List (Nat × CbArg) :=
  tr.filterMap (fun a => match a with
    | .cbTask c arg => some (c, arg)
    | _ => none)

def countCbTask (c : Nat) (tr : Trace) : Nat :=
  tr.countP (fun a => match a with
    | .cbTask d _ => d == c
    | _ => false)

/-- The first sync-topic payload of claim C7. -/
def tmsFrame1 : Json := .obj [("firstDeltaSeqId", .str "100"), ("syncToken", .str "tok-1")]

/-- The second sync-topic payload of claim C7. -/
def tmsFrame2 : Json := .obj [("lastIssuedSeqId", .str "105")]

/-- A fresh default session state. -/
def stBase : St := {}

/-- C7: a `/t_ms` frame carrying `firstDeltaSeqId = "100"` and
`syncToken = "tok-1"` stores cursor `"100"` and token `"tok-1"`; a subsequent
frame carrying only `lastIssuedSeqId = "105"` stores the number 105 and
leaves the token unchanged. -/
theorem C7_sync_cursor_token_update (g : String → Json → Option Json) (st : St)
    (h : st.ending = false) :
    ((exec g (.msgFrame "/t_ms" (some tmsFrame1)) st).1.lastSeqId
        = Cursor.js (.str "100")
      ∧ (exec g (.msgFrame "/t_ms" (some tmsFrame1)) st).1.syncToken
        = some (.str "tok-1"))
    ∧ ((exec g (.msgFrame "/t_ms" (some tmsFrame2))
          (exec g (.msgFrame "/t_ms" (some tmsFrame1)) st).1).1.lastSeqId
        = Cursor.js (.num 105)
      ∧ (exec g (.msgFrame "/t_ms" (some tmsFrame2))
          (exec g (.msgFrame "/t_ms" (some tmsFrame1)) st).1).1.syncToken
        = some (.str "tok-1")) := by
  cases h1 : st.tmsWaitSet <;>
    simp [exec, handleFrameFn, handleFrameBody, tmsWaitFn, h, h1, tmsFrame1,
      tmsFrame2, Json.get, jsTruthy, Json.truthy, parseIntCursor,
      coerceStringOpt, Json.coerceString, jsParseInt, takeDigits, digitsVal,
      List.find?]

/-- Witness for C7 at the fresh state. -/
theorem C7_sync_cursor_token_update_witness :
    stBase.ending = false
    ∧ (exec gNone (.msgFrame "/t_ms" (some tmsFrame1)) stBase).1.lastSeqId
        = Cursor.js (.str "100") :=
  ⟨rfl, (C7_sync_cursor_token_update gNone stBase rfl).1.1⟩

theorem jsonParse_undefined : jsonParse "undefined" = none := rfl

theorem getEmpty (k : String) : Json.get (Json.obj []) k = none := rfl

/-- On the empty-object payload (which is what a malformed payload degrades
to), the handler body either runs `tmsWait`, throws a caught TypeError or
SyntaxError, or does nothing, depending only on the topic. -/
theorem handleFrameBody_empty (g : String → Json → Option Json) (topic : String)
    (st : St) :
    handleFrameBody g topic (Json.obj []) st =
      if topic == "/t_ms" then ((tmsWaitFn st).1, (tmsWaitFn st).2, none)
      else if topic == "/thread_typing" || topic == "/orca_typing_notifications" then
        (st, [], some "TypeError: sender_fbid is undefined")
      else if topic == "/orca_presence" then (st, [], none)
      else if topic == "/ls_resp" then
        (st, [], some "SyntaxError: unexpected token in JSON")
      else (st, [], none) := by
  unfold handleFrameBody
  simp [getEmpty, jsTruthy, jsonParse_undefined, coerceStringOpt]

theorem tmsWaitFn_transport (st : St) : (tmsWaitFn st).1.transport = st.transport := by
  unfold tmsWaitFn; split <;> rfl

theorem tmsWaitFn_noEnd (st : St) :
    (tmsWaitFn st).2.any isEndTransport = false := by
  unfold tmsWaitFn
  split <;> simp [isEndTransport]

/-- C9: a frame whose payload is malformed (non-JSON) text behaves, on every
topic and in every state, exactly like a frame carrying the empty object —
the inner catch swallows the parse failure — and its processing never throws
past the handler (the handler is a total function whose exceptions are
absorbed by the outer catch), never force-ends the transport and leaves the
transport state unchanged, so subsequent frames continue to be processed. -/
theorem C9_malformed_payload_harmless (g : String → Json → Option Json)
    (topic : String) (st : St) :
    exec g (.msgFrame topic none) st
      = exec g (.msgFrame topic (some (Json.obj []))) st
    ∧ (exec g (.msgFrame topic none) st).2.any isEndTransport = false
    ∧ (exec g (.msgFrame topic none) st).1.transport = st.transport := by
  refine ⟨rfl, ?_, ?_⟩
  all_goals
    unfold exec handleFrameFn
    cases h : st.ending
  case _ =>
    simp only [Bool.false_eq_true, if_false, Option.getD, handleFrameBody_empty]
    split_ifs <;>
      simp [tmsWaitFn_noEnd, isEndTransport, List.any_append]
  case _ => simp [h, isEndTransport]
  case _ =>
    simp only [Bool.false_eq_true, if_false, Option.getD, handleFrameBody_empty]
    split_ifs <;> simp [tmsWaitFn_transport]
  case _ => simp [h]

set_option maxHeartbeats 1000000

/-- C10: calling `stopListening` twice on a facade that has not been stopped
invokes the supplied callback on both calls, emits `closed` exactly once
across the two calls, and the second call is a no-op that performs no
further teardown (its only action is the asynchronous callback invocation,
and it leaves the state unchanged). -/
theorem C10_stop_twice (g : String → Json → Option Json) (st : St)
    (h : st.stopped = false) :
    ((exec g .stopListeningCall st).2 ++
      (exec g .stopListeningCall (exec g .stopListeningCall st).1).2).countP
        isClosedEv = 1
    ∧ (exec g .stopListeningCall st).2.countP isCbStop = 1
    ∧ (exec g .stopListeningCall (exec g .stopListeningCall st).1).2
        = [Act.cbStop]
    ∧ (exec g .stopListeningCall (exec g .stopListeningCall st).1).1
        = (exec g .stopListeningCall st).1 := by
  cases hc : st.autoCycleTimer <;> cases hr : st.reconnectTimer <;>
    cases hra : st.reconnectAfterStop <;> cases ht : st.transport <;>
      cases hrt : st.rTimeout <;>
        simp [exec, stopListeningFn, endQuietlyFn, delayedReconnectFn, h, hc,
          hr, hra, ht, hrt, isClosedEv, isCbStop, List.countP_append,
          List.countP_cons]

/-- Witness for C10 at the fresh state. -/
theorem C10_stop_twice_witness :
    stBase.stopped = false
    ∧ ((exec gNone .stopListeningCall stBase).2 ++
        (exec gNone .stopListeningCall (exec gNone .stopListeningCall stBase).1).2).countP
          isClosedEv = 1 :=
  ⟨rfl, (C10_stop_twice gNone stBase rfl).1⟩

/-- `emitAuth` emits exactly one `fatal` (with the given reason) and nothing
else on the emitter: no `error`, no `reconnecting`, no timer scheduling, no
new connection, no bootstrap, no `closed`. -/
theorem emitAuth_trace (reason msg : String) (st : St) :
    fatalReasons (emitAuthFn reason msg st).2 = [reason]
    ∧ (emitAuthFn reason msg st).2.countP isErrorEv = 0
    ∧ (emitAuthFn reason msg st).2.any isReconnecting = false
    ∧ (emitAuthFn reason msg st).2.any isSetTimer = false
    ∧ (emitAuthFn reason msg st).2.any isStartConnect = false
    ∧ (emitAuthFn reason msg st).2.any isIssueBootstrap = false
    ∧ (emitAuthFn reason msg st).2.countP isClosedEv = 0 := by
  unfold emitAuthFn
  cases hc : st.autoCycleTimer <;> cases hr : st.reconnectTimer <;>
    cases ht : st.transport <;> cases hrt : st.rTimeout <;>
      simp [fatalReasons, isErrorEv, isReconnecting, isSetTimer, isStartConnect,
        isIssueBootstrap, isClosedEv]

/-- The state after `emitAuth`: ending, logged out, transport gone, all
tracked timers cleared, tasks purged — and `lastSeqId`, `syncToken`,
`reconnectAttempts` and `untrackedTimers` untouched. -/
theorem emitAuth_state (reason msg : String) (st : St) :
    (emitAuthFn reason msg st).1
      = { st with autoCycleTimer := false, reconnectTimer := false,
                  ending := true, cycling := false, transport := .off,
                  loggedIn := false, rTimeout := false, tasks := [] } := rfl

theorem fatalReasons_cons_err (tag d : String) (tr : Trace) :
    fatalReasons (Act.ev (.errorEv tag d) :: tr) = fatalReasons tr := rfl

/-- The post-`listenMqtt()` state of a fresh session: auto-reconnect on,
reconnect-after-stop off, forced cycling armed, first bootstrap in flight. -/
def stStart : St := (startListening true false false false true).1

/-- Counterexample to C1: the bootstrap failure message `"ETIMEDOUT"` matches
neither auth signature, auto-reconnect is enabled and the session is not
ending, yet the core emits a `fatal` event, emits no `reconnecting`,
schedules no timer, and leaves the attempt counter unincremented — because
`getSeqID`'s catch handler ends by invoking `emitAuth` with reason
`auth_error` even for unclassified failures, and its internal catch resolves
the promise so the wrapper's retry path cannot run. -/
theorem C1_counterexample :
    matchNotLoggedIn "ETIMEDOUT" = false
    ∧ matchBlockedTheLogin "ETIMEDOUT" = false
    ∧ stStart.autoReconnect = true
    ∧ stStart.ending = false
    ∧ (exec gNone (.bootstrapDone (.fail "ETIMEDOUT")) stStart).2.any isFatal = true
    ∧ (exec gNone (.bootstrapDone (.fail "ETIMEDOUT")) stStart).2.any isReconnecting
        = false
    ∧ (exec gNone (.bootstrapDone (.fail "ETIMEDOUT")) stStart).2.any isSetTimer
        = false
    ∧ (exec gNone (.bootstrapDone (.fail "ETIMEDOUT")) stStart).1.reconnectTimer
        = false
    ∧ (exec gNone (.bootstrapDone (.fail "ETIMEDOUT")) stStart).1.untrackedTimers
        = 0
    ∧ (exec gNone (.bootstrapDone (.fail "ETIMEDOUT")) stStart).1.reconnectAttempts
        = stStart.reconnectAttempts := by
  decide

/-- C1 as amended: a sequence-bootstrap failure whose message matches neither
auth signature emits exactly one non-fatal `error` event but then invokes
`emitAuth` with reason `auth_error`: a `fatal` event is emitted, the session
becomes ending and logged out, tracked timers are cleared and the task table
purged, and no retry is ever scheduled — no `reconnecting` event, no timer
set, attempt counter unchanged — regardless of the auto-reconnect setting
(the wrapper's retry path is unreachable because `getSeqID`'s internal catch
resolves the promise). -/
theorem C1_bootstrap_failure_fatal_no_retry (g : String → Json → Option Json)
    (st : St) (msg : String)
    (h1 : matchNotLoggedIn msg = false) (h2 : matchBlockedTheLogin msg = false)
    (h3 : st.bootstrapInFlight ≠ 0) :
    (exec g (.bootstrapDone (.fail msg)) st).2.countP isErrorEv = 1
    ∧ fatalReasons (exec g (.bootstrapDone (.fail msg)) st).2 = ["auth_error"]
    ∧ (exec g (.bootstrapDone (.fail msg)) st).2.any isReconnecting = false
    ∧ (exec g (.bootstrapDone (.fail msg)) st).2.any isSetTimer = false
    ∧ (exec g (.bootstrapDone (.fail msg)) st).1.ending = true
    ∧ (exec g (.bootstrapDone (.fail msg)) st).1.reconnectTimer = false
    ∧ (exec g (.bootstrapDone (.fail msg)) st).1.untrackedTimers
        = st.untrackedTimers
    ∧ (exec g (.bootstrapDone (.fail msg)) st).1.reconnectAttempts
        = st.reconnectAttempts
    ∧ (exec g (.bootstrapDone (.fail msg)) st).1.loggedIn = false
    ∧ (exec g (.bootstrapDone (.fail msg)) st).1.tasks = [] := by
  unfold exec bootstrapDoneFn
  simp only [h1, h2, h3, if_false, Bool.false_eq_true, if_neg]
  have h := emitAuth_trace "auth_error" msg
      { st with bootstrapInFlight := st.bootstrapInFlight - 1 }
  obtain ⟨e1, e2, e3, e4, -, -, -⟩ := h
  refine ⟨?_, ?_, ?_, ?_, rfl, rfl, rfl, rfl, rfl, rfl⟩
  · simp [List.countP_cons, isErrorEv, e2]
  · rw [fatalReasons_cons_err]; exact e1
  · simp [isReconnecting, e3]
  · simp [isSetTimer, e4]

/-- Witness for the amended C1 at the fresh started state with message
`"ETIMEDOUT"`. -/
theorem C1_bootstrap_failure_fatal_no_retry_witness :
    matchNotLoggedIn "ETIMEDOUT" = false
    ∧ fatalReasons (exec gNone (.bootstrapDone (.fail "ETIMEDOUT")) stStart).2
        = ["auth_error"] :=
  ⟨by decide,
   (C1_bootstrap_failure_fatal_no_retry gNone stStart "ETIMEDOUT"
      (by decide) (by decide) (by decide)).2.1⟩

theorem fatalReasons_emitAuth (r m : String) (s : St) :
    fatalReasons (emitAuthFn r m s).2 = [r] := (emitAuth_trace r m s).1

theorem emitAuth_noSetTimer (r m : String) (s : St) :
    (emitAuthFn r m s).2.any isSetTimer = false := (emitAuth_trace r m s).2.2.2.1

theorem fatalReasons_append (a b : Trace) :
    fatalReasons (a ++ b) = fatalReasons a ++ fatalReasons b := by
  induction a with
  | nil => rfl
  | cons x t ih =>
      cases x with
      | ev e => cases e <;> simp [fatalReasons, ih]
      | _ => simp [fatalReasons, ih]

theorem fatalReasons_endT : fatalReasons [Act.endTransport] = [] := rfl

theorem fatalReasons_cons_endT (tr : Trace) :
    fatalReasons (Act.endTransport :: tr) = fatalReasons tr := rfl

theorem fatalReasons_nil : fatalReasons [] = [] := rfl

/-- Counterexample to C2: the message `"Not logged in: blocked the login"`
matches `/blocked the login/i`, yet at the sequence-bootstrap surface
`emitAuth` is invoked with reason `not_logged_in`, not `login_blocked`,
because `getSeqID`'s catch tests `/Not logged in/i` first. -/
theorem C2_counterexample :
    matchBlockedTheLogin "Not logged in: blocked the login" = true
    ∧ fatalReasons
        (exec gNone
          (.bootstrapDone (.fail "Not logged in: blocked the login")) stStart).2
        = ["not_logged_in"] := by
  decide

/-- C2 as amended: at the bootstrap surface `/Not logged in/i` takes
precedence (a message matching it yields reason `not_logged_in` even if it
also matches `/blocked the login/i`; only otherwise does `/blocked the
login/i` yield `login_blocked`), while at the guarded-post and transport
surfaces the reason is `login_blocked` exactly when the message matches
`/blocked/i` (not the full phrase), else `not_logged_in`.  In every case
exactly one `fatal` event is emitted, the tracked reconnect timer is left
cleared, the ending flag is set, no timer is scheduled, and a subsequently
firing cycle-scheduled reconnect timer issues no bootstrap while the session
remains ending and not cycling. -/
theorem C2_auth_classification (g : String → Json → Option Json) (st : St)
    (msg : String) :
    (st.bootstrapInFlight ≠ 0 → matchNotLoggedIn msg = true →
      fatalReasons (exec g (.bootstrapDone (.fail msg)) st).2 = ["not_logged_in"]
      ∧ (exec g (.bootstrapDone (.fail msg)) st).1.reconnectTimer = false
      ∧ (exec g (.bootstrapDone (.fail msg)) st).1.ending = true
      ∧ (exec g (.bootstrapDone (.fail msg)) st).2.any isSetTimer = false)
    ∧ (st.bootstrapInFlight ≠ 0 → matchNotLoggedIn msg = false →
        matchBlockedTheLogin msg = true →
      fatalReasons (exec g (.bootstrapDone (.fail msg)) st).2 = ["login_blocked"]
      ∧ (exec g (.bootstrapDone (.fail msg)) st).1.reconnectTimer = false
      ∧ (exec g (.bootstrapDone (.fail msg)) st).1.ending = true
      ∧ (exec g (.bootstrapDone (.fail msg)) st).2.any isSetTimer = false)
    ∧ (postGuardPattern msg = true →
      fatalReasons (exec g (.postGuardReject msg) st).2
        = [if matchBlocked msg then "login_blocked" else "not_logged_in"]
      ∧ (exec g (.postGuardReject msg) st).1.reconnectTimer = false
      ∧ (exec g (.postGuardReject msg) st).1.ending = true
      ∧ (exec g (.postGuardReject msg) st).2.any isSetTimer = false)
    ∧ (transportAuthPattern msg = true →
        ((st.ending || st.cycling) && benignShutdownPattern msg) = false →
      fatalReasons (exec g (.transportError msg) st).2
        = [if matchBlocked msg then "login_blocked" else "not_logged_in"]
      ∧ (exec g (.transportError msg) st).1.reconnectTimer = false
      ∧ (exec g (.transportError msg) st).1.ending = true
      ∧ (exec g (.transportError msg) st).2.any isSetTimer = false)
    ∧ (st.ending = true → st.cycling = false →
      (exec g (.untrackedReconnectFire) st).2.any isIssueBootstrap = false) := by
  refine ⟨?_, ?_, ?_, ?_, ?_⟩
  · intro h3 h1
    unfold exec bootstrapDoneFn
    simp only [h1, h3, if_neg, if_true]
    simp [fatalReasons_emitAuth, emitAuth_noSetTimer, emitAuth_state]
  · intro h3 h1 h2
    unfold exec bootstrapDoneFn
    simp only [h1, h2, h3, if_neg, if_true, Bool.false_eq_true, if_false]
    simp [fatalReasons_emitAuth, emitAuth_noSetTimer, emitAuth_state]
  · intro hp
    unfold exec postGuardRejectFn
    simp only [hp, if_true]
    simp [fatalReasons_emitAuth, emitAuth_noSetTimer, emitAuth_state]
  · intro ha hb
    unfold exec transportErrorFn
    simp only [ha, hb, if_true, Bool.false_eq_true, if_false]
    cases ht : st.transport <;>
      simp [ht, fatalReasons_append, fatalReasons_emitAuth, fatalReasons_endT,
        fatalReasons_cons_endT, fatalReasons_nil, emitAuth_noSetTimer,
        emitAuth_state, isSetTimer, List.any_append]
  · intro he hc
    unfold exec untrackedReconnectFireFn getSeqIDWrapperFn
    simp [he, hc, isIssueBootstrap]
    split_ifs <;> simp

/-- Witness for the amended C2 at the guarded-post surface with message
`"Not logged in"`. -/
theorem C2_auth_classification_witness :
    postGuardPattern "Not logged in" = true
    ∧ fatalReasons (exec gNone (.postGuardReject "Not logged in") stBase).2
        = ["not_logged_in"] :=
  ⟨by decide, by
    have h := ((C2_auth_classification gNone stBase "Not logged in").2.2.1
      (by decide)).1
    simpa [show matchBlocked "Not logged in" = false by decide] using h⟩

theorem reconArgs_emitAuth (r m : String) (s : St) :
    reconnectingArgs (emitAuthFn r m s).2 = [] := by
  unfold emitAuthFn
  cases hc : s.autoCycleTimer <;> cases hr : s.reconnectTimer <;>
    cases ht : s.transport <;> cases hrt : s.rTimeout <;>
      simp [reconnectingArgs]

theorem reconArgs_append (a b : Trace) :
    reconnectingArgs (a ++ b) = reconnectingArgs a ++ reconnectingArgs b := by
  induction a with
  | nil => rfl
  | cons x t ih =>
      cases x with
      | ev e => cases e <;> simp [reconnectingArgs, ih]
      | _ => simp [reconnectingArgs, ih]

theorem reconArgs_cons_errEv (tag d : String) (tr : Trace) :
    reconnectingArgs (Act.ev (.errorEv tag d) :: tr) = reconnectingArgs tr := rfl

/-- Incoming frames never alter the reconnect-attempt counter and never emit
`reconnecting`, whatever the topic and payload. -/
theorem msgFrame_preserves (g : String → Json → Option Json)
    (topic : String) (payload : Option Json) (st : St) :
    (exec g (.msgFrame topic payload) st).1.reconnectAttempts
        = st.reconnectAttempts
    ∧ (exec g (.msgFrame topic payload) st).2.any isReconnecting = false := by
  simp only [exec]
  unfold handleFrameFn handleFrameBody tmsWaitFn
  split
  · simp [reconnectingArgs, isReconnecting]
  · repeat' split
    all_goals
      simp_all [reconnectingArgs, isReconnecting, List.any_append, List.any_map]

theorem reconArgs_nil_of_none (tr : Trace) (h : tr.any isReconnecting = false) :
    reconnectingArgs tr = [] := by
  induction tr with
  | nil => rfl
  | cons a t ih =>
      simp [List.any_cons] at h
      cases a with
      | ev e =>
          cases e <;> simp_all [reconnectingArgs, isReconnecting]
      | _ => simp_all [reconnectingArgs, isReconnecting]

/-- In every step of the core, every emitted `reconnecting` event carries
exactly the post-step value of the reconnect-attempt counter. -/
theorem reconArg_matches_counter (g : String → Json → Option Json) (s : Step)
    (st : St) :
    ∀ n ∈ reconnectingArgs (exec g s st).2,
      n = (exec g s st).1.reconnectAttempts := by
  cases s
  case msgFrame topic payload =>
    rw [reconArgs_nil_of_none _ (msgFrame_preserves g topic payload st).2]
    simp
  case bootstrapDone r =>
    simp only [exec]
    unfold bootstrapDoneFn connectMqttFn
    rcases r with s | _ | msg
    · split_ifs <;> simp [reconnectingArgs]
    · split_ifs <;> simp [reconnectingArgs]
    · cases hm1 : matchNotLoggedIn msg <;>
        cases hm2 : matchBlockedTheLogin msg <;>
          split_ifs <;>
            simp [hm1, hm2, reconnectingArgs, reconArgs_cons_errEv,
              reconArgs_emitAuth, emitAuth_state]
  case transportConnect =>
    simp only [exec]
    unfold transportConnectFn
    split_ifs <;> simp [reconnectingArgs]
  case transportError msg =>
    simp only [exec]
    unfold transportErrorFn scheduleReconnectFn
    cases he : st.ending <;> cases hcy : st.cycling <;>
      cases hbp : benignShutdownPattern msg <;>
        cases ha : transportAuthPattern msg <;>
          cases ht : st.transport <;> cases har : st.autoReconnect <;>
            cases hr : st.reconnectTimer <;>
              simp [he, hcy, hbp, ha, ht, har, hr, reconnectingArgs,
                reconArgs_append, reconArgs_emitAuth]
  case transportClose =>
    simp only [exec]
    unfold transportCloseFn scheduleReconnectFn
    cases he : st.ending <;> cases hcy : st.cycling <;>
      cases har : st.autoReconnect <;> cases hr : st.reconnectTimer <;>
        simp [he, hcy, har, hr, reconnectingArgs, reconArgs_append]
  case transportDisconnect =>
    simp only [exec]
    unfold transportDisconnectFn scheduleReconnectFn
    cases he : st.ending <;> cases hcy : st.cycling <;>
      cases har : st.autoReconnect <;> cases hr : st.reconnectTimer <;>
        simp [he, hcy, har, hr, reconnectingArgs, reconArgs_append]
  case reconnectTimerFire =>
    simp only [exec]
    unfold reconnectTimerFireFn connectMqttFn
    cases hr : st.reconnectTimer <;> cases he : st.ending <;>
      simp [hr, he, reconnectingArgs]
  case untrackedReconnectFire =>
    simp only [exec]
    unfold untrackedReconnectFireFn getSeqIDWrapperFn
    split_ifs <;> simp [reconnectingArgs]
  case rTimeoutFire =>
    simp only [exec]
    unfold rTimeoutFireFn scheduleReconnectFn
    cases hrt : st.rTimeout <;> cases he : st.ending <;>
      cases ht : st.transport <;> cases hr : st.reconnectTimer <;>
        simp [hrt, he, ht, hr, reconnectingArgs, reconArgs_append]
  case cycleTimerFire =>
    simp only [exec]
    unfold forceCycleFn delayedReconnectFn endQuietlyFn
    cases hac : st.autoCycleTimer <;> cases hcy : st.cycling <;>
      cases ht : st.transport <;> cases hrt : st.rTimeout <;>
        cases hr : st.reconnectTimer <;>
          simp [hac, hcy, ht, hrt, hr, reconnectingArgs, reconArgs_append]
  case stopListeningCall =>
    simp only [exec]
    unfold stopListeningFn delayedReconnectFn endQuietlyFn
    cases hst : st.stopped <;> cases hras : st.reconnectAfterStop <;>
      cases hac : st.autoCycleTimer <;> cases ht : st.transport <;>
        cases hrt : st.rTimeout <;> cases hr : st.reconnectTimer <;>
          simp [hst, hras, hac, ht, hrt, hr, reconnectingArgs, reconArgs_append]
  case postGuardReject msg =>
    simp only [exec]
    unfold postGuardRejectFn
    split_ifs <;> simp [reconnectingArgs, reconArgs_emitAuth]

/-- A state with two reconnect attempts recorded and a transport connect
pending. -/
def stC3 : St := { stBase with reconnectAttempts := 2, transport := .connecting }

/-- Counterexample to C3: on the transport-level connect event the attempt
counter is reset from 2 to 0, yet the public `connected` lifecycle event is
not emitted in that step (it is emitted only when the first sync frame
arrives), so the counter is not "reset exactly at the moment the public
`connected` event is emitted". -/
theorem C3_counterexample :
    stC3.reconnectAttempts = 2
    ∧ (exec gNone .transportConnect stC3).1.reconnectAttempts = 0
    ∧ (exec gNone .transportConnect stC3).2.any isConnectedEv = false := by
  decide

/-- C3 as amended: every `reconnecting` event carries the post-step counter
value; a scheduled attempt (`scheduleReconnect` when it is not suppressed,
`delayedReconnect` always) increments the counter by exactly one and emits
exactly that value; the counter is reset to zero by the transport-level
connect event (which does not emit `connected`) and by the `endQuietly`
teardown, while frame processing — including the sync frame that does emit
`connected` — leaves it unchanged. -/
theorem C3_attempt_counter_discipline (g : String → Json → Option Json)
    (st : St) :
    (∀ s : Step, ∀ n ∈ reconnectingArgs (exec g s st).2,
        n = (exec g s st).1.reconnectAttempts)
    ∧ (st.transport = .connecting →
        (exec g .transportConnect st).1.reconnectAttempts = 0
        ∧ (exec g .transportConnect st).2.any isConnectedEv = false)
    ∧ (∀ (topic : String) (payload : Option Json),
        (exec g (.msgFrame topic payload) st).1.reconnectAttempts
          = st.reconnectAttempts)
    ∧ (st.reconnectTimer = false → st.ending = false →
        (scheduleReconnectFn st).1.reconnectAttempts = st.reconnectAttempts + 1
        ∧ reconnectingArgs (scheduleReconnectFn st).2
            = [st.reconnectAttempts + 1])
    ∧ (delayedReconnectFn st).1.reconnectAttempts = st.reconnectAttempts + 1
    ∧ reconnectingArgs (delayedReconnectFn st).2 = [st.reconnectAttempts + 1]
    ∧ (endQuietlyFn st).1.reconnectAttempts = 0 := by
  refine ⟨fun s => reconArg_matches_counter g s st, ?_, ?_, ?_, rfl, rfl, rfl⟩
  · intro h
    simp only [exec]
    unfold transportConnectFn
    simp [h, isConnectedEv]
  · intro topic payload
    exact (msgFrame_preserves g topic payload st).1
  · intro hr he
    unfold scheduleReconnectFn
    simp [hr, he, reconnectingArgs]

/-- Witness for the amended C3 at the pre-connect state. -/
theorem C3_attempt_counter_discipline_witness :
    stC3.transport = TransportSt.connecting
    ∧ (exec gNone .transportConnect stC3).1.reconnectAttempts = 0 :=
  ⟨rfl, ((C3_attempt_counter_discipline gNone stC3).2.1 rfl).1⟩

/-- Counterexample to C4: starting from the freshly started state (whose
bootstrap POST is in flight), calling `stopListening` completes and resets
the ending flag to false (`endQuietly`'s `finish` does `ctx._ending =
false`); the in-flight bootstrap then completes and — with no ending check in
`getSeqID`'s success path — opens a brand-new transport connection after the
stop. -/
theorem C4_counterexample :
    stStart.bootstrapInFlight = 1
    ∧ stStart.stopped = false
    ∧ (exec gNone .stopListeningCall stStart).1.stopped = true
    ∧ (exec gNone .stopListeningCall stStart).1.ending = false
    ∧ (exec gNone (.bootstrapDone (.okSeq "7"))
        (exec gNone .stopListeningCall stStart).1).2.any isStartConnect = true
    ∧ (exec gNone (.bootstrapDone (.okSeq "7"))
        (exec gNone .stopListeningCall stStart).1).1.transport
        = TransportSt.connecting := by
  decide

/-- C4 as amended: while the ending flag is set, the sync-ack timer callback,
the tracked reconnect timer callback, the untracked (cycle-scheduled)
reconnect timer callback and the frame handler are all no-ops, even if they
were scheduled before the stop call.  However `stopListening`'s own teardown
resets the ending flag to false on completion, and the bootstrap success
continuation performs no ending check at all: whenever a bootstrap is in
flight, its completion opens a new transport connection regardless of the
flags, so connection activity can resume after a stop. -/
theorem C4_ending_guard_coverage (g : String → Json → Option Json) (st : St) :
    (st.ending = true →
      exec g .rTimeoutFire st = ({ st with rTimeout := false }, []))
    ∧ (st.ending = true →
      exec g .reconnectTimerFire st = ({ st with reconnectTimer := false }, []))
    ∧ (st.ending = true → st.cycling = false →
      exec g .untrackedReconnectFire st
        = ({ st with untrackedTimers := st.untrackedTimers - 1 }, []))
    ∧ (st.ending = true → ∀ (topic : String) (payload : Option Json),
        exec g (.msgFrame topic payload) st = (st, []))
    ∧ (st.stopped = false → st.reconnectAfterStop = false →
        (exec g .stopListeningCall st).1.ending = false)
    ∧ (st.bootstrapInFlight ≠ 0 → ∀ s : String,
        (exec g (.bootstrapDone (.okSeq s)) st).2.any isStartConnect = true
        ∧ (exec g (.bootstrapDone (.okSeq s)) st).1.transport
            = TransportSt.connecting) := by
  refine ⟨?_, ?_, ?_, ?_, ?_, ?_⟩
  · intro he
    cases st
    simp only [exec]
    unfold rTimeoutFireFn
    simp only at he
    subst he
    split_ifs <;> simp_all
  · intro he
    cases st
    simp only [exec]
    unfold reconnectTimerFireFn
    simp only at he
    subst he
    split_ifs <;> simp_all
  · intro he hc
    cases st
    simp only [exec]
    unfold untrackedReconnectFireFn getSeqIDWrapperFn
    simp only at he hc
    subst he
    subst hc
    split_ifs <;> simp_all
  · intro he topic payload
    simp only [exec]
    unfold handleFrameFn
    simp [he]
  · intro hst hras
    simp only [exec]
    unfold stopListeningFn endQuietlyFn
    simp [hst, hras]
  · intro hb s
    simp only [exec]
    unfold bootstrapDoneFn connectMqttFn
    simp [hb, isStartConnect]

/-- Witness for the amended C4 at an ending state. -/
theorem C4_ending_guard_coverage_witness :
    ({ stBase with ending := true } : St).ending = true
    ∧ exec gNone .rTimeoutFire { stBase with ending := true }
        = ({ stBase with ending := true, rTimeout := false }, []) :=
  ⟨rfl, (C4_ending_guard_coverage gNone { stBase with ending := true }).1 rfl⟩

/-- The freshly started state when the caller configured
reconnect-after-stop. -/
def stStartRAS : St := (startListening true true false false true).1

/-- Counterexample to C5: with reconnect-after-stop configured, completing
`stopListening` leaves a pending timer created by the core — the bare
`setTimeout` scheduled by `delayedReconnect` — so it is not the case that no
core-created timer remains pending after teardown. -/
theorem C5_counterexample :
    stStartRAS.stopped = false
    ∧ (exec gNone .stopListeningCall stStartRAS).1.untrackedTimers = 1
    ∧ (exec gNone .stopListeningCall stStartRAS).2.any isSetTimer = true := by
  decide

/-- C5 as amended: after `stopListening` completes its teardown the
forced-cycle interval timer, the tracked reconnect timer and the sync-ack
timer are cleared and the Pending Task Table is empty; untracked reconnect
timers, however, are not cleared — their count is unchanged, plus one when
reconnect-after-stop is configured (the deliberate restart timer). -/
theorem C5_stop_clears_tracked_timers (g : String → Json → Option Json)
    (st : St) (h : st.stopped = false) :
    (exec g .stopListeningCall st).1.autoCycleTimer = false
    ∧ (exec g .stopListeningCall st).1.reconnectTimer = false
    ∧ (exec g .stopListeningCall st).1.rTimeout = false
    ∧ (exec g .stopListeningCall st).1.tasks = []
    ∧ (exec g .stopListeningCall st).1.untrackedTimers
        = st.untrackedTimers
          + (if st.reconnectAfterStop = true then 1 else 0) := by
  simp only [exec]
  unfold stopListeningFn endQuietlyFn delayedReconnectFn
  cases hras : st.reconnectAfterStop <;> simp [h, hras]

/-- Witness for the amended C5 at the default-configured started state. -/
theorem C5_stop_clears_tracked_timers_witness :
    stStart.stopped = false
    ∧ (exec gNone .stopListeningCall stStart).1.tasks = [] :=
  ⟨rfl, (C5_stop_clears_tracked_timers gNone stStart rfl).2.2.2.1⟩

theorem emitAuth_cursor (r m : String) (s : St) :
    (emitAuthFn r m s).1.lastSeqId = s.lastSeqId := rfl

theorem emitAuth_token (r m : String) (s : St) :
    (emitAuthFn r m s).1.syncToken = s.syncToken := rfl

/-- A state holding a stored cursor and sync token with the forced-cycle
interval armed. -/
def stC6 : St :=
  { stBase with lastSeqId := .js (.str "100"), syncToken := some (.str "tok"),
                autoCycleTimer := true }

/-- Counterexample to C6: a forced periodic cycle resets the stored cursor
to null and the stored sync token to undefined, because `forceCycle` tears
down through `endQuietly`, whose `finish` clears both. -/
theorem C6_counterexample :
    stC6.lastSeqId = Cursor.js (.str "100")
    ∧ stC6.syncToken = some (.str "tok")
    ∧ (exec gNone .cycleTimerFire stC6).1.lastSeqId = Cursor.js .null
    ∧ (exec gNone .cycleTimerFire stC6).1.syncToken = none :=
  ⟨rfl, rfl, rfl, rfl⟩

/-- C6 as amended: the stored cursor and sync token persist across ordinary
scheduled reconnects (the tracked reconnect timer firing), across the
transport connect event, across every transport error/close/disconnect
signal and sync-ack timeout, across guarded-post auth failures and
bootstrap failures (in particular, the fatal-auth teardown `emitAuth` leaves
the cursor and token in place); but they are reset to their initial values
by every `endQuietly` teardown — which includes the forced periodic cycle,
not only the intentional stop. -/
theorem C6_session_fields_across_cycles (g : String → Json → Option Json)
    (st : St) :
    ((exec g .reconnectTimerFire st).1.lastSeqId = st.lastSeqId
      ∧ (exec g .reconnectTimerFire st).1.syncToken = st.syncToken)
    ∧ ((exec g .transportConnect st).1.lastSeqId = st.lastSeqId
      ∧ (exec g .transportConnect st).1.syncToken = st.syncToken)
    ∧ (∀ msg : String,
        (exec g (.transportError msg) st).1.lastSeqId = st.lastSeqId
        ∧ (exec g (.transportError msg) st).1.syncToken = st.syncToken)
    ∧ ((exec g .transportClose st).1.lastSeqId = st.lastSeqId
      ∧ (exec g .transportClose st).1.syncToken = st.syncToken)
    ∧ ((exec g .transportDisconnect st).1.lastSeqId = st.lastSeqId
      ∧ (exec g .transportDisconnect st).1.syncToken = st.syncToken)
    ∧ ((exec g .rTimeoutFire st).1.lastSeqId = st.lastSeqId
      ∧ (exec g .rTimeoutFire st).1.syncToken = st.syncToken)
    ∧ ((exec g .untrackedReconnectFire st).1.lastSeqId = st.lastSeqId
      ∧ (exec g .untrackedReconnectFire st).1.syncToken = st.syncToken)
    ∧ (∀ msg : String,
        (exec g (.postGuardReject msg) st).1.lastSeqId = st.lastSeqId
        ∧ (exec g (.postGuardReject msg) st).1.syncToken = st.syncToken)
    ∧ (∀ msg : String,
        (exec g (.bootstrapDone (.fail msg)) st).1.lastSeqId = st.lastSeqId
        ∧ (exec g (.bootstrapDone (.fail msg)) st).1.syncToken = st.syncToken)
    ∧ (st.autoCycleTimer = true → st.cycling = false →
        (exec g .cycleTimerFire st).1.lastSeqId = Cursor.js .null
        ∧ (exec g .cycleTimerFire st).1.syncToken = none)
    ∧ (st.stopped = false →
        (exec g .stopListeningCall st).1.lastSeqId = Cursor.js .null
        ∧ (exec g .stopListeningCall st).1.syncToken = none) := by
  refine ⟨?_, ?_, ?_, ?_, ?_, ?_, ?_, ?_, ?_, ?_, ?_⟩
  · simp only [exec]
    unfold reconnectTimerFireFn connectMqttFn
    cases hr : st.reconnectTimer <;> cases he : st.ending <;> simp [hr, he]
  · simp only [exec]
    unfold transportConnectFn
    split_ifs <;> simp
  · intro msg
    simp only [exec]
    unfold transportErrorFn scheduleReconnectFn
    cases he : st.ending <;> cases hcy : st.cycling <;>
      cases hbp : benignShutdownPattern msg <;>
        cases ha : transportAuthPattern msg <;>
          cases ht : st.transport <;> cases har : st.autoReconnect <;>
            cases hr : st.reconnectTimer <;>
              simp [he, hcy, hbp, ha, ht, har, hr, emitAuth_cursor,
                emitAuth_token]
  · simp only [exec]
    unfold transportCloseFn scheduleReconnectFn
    cases he : st.ending <;> cases hcy : st.cycling <;>
      cases har : st.autoReconnect <;> cases hr : st.reconnectTimer <;>
        simp [he, hcy, har, hr]
  · simp only [exec]
    unfold transportDisconnectFn scheduleReconnectFn
    cases he : st.ending <;> cases hcy : st.cycling <;>
      cases har : st.autoReconnect <;> cases hr : st.reconnectTimer <;>
        simp [he, hcy, har, hr]
  · simp only [exec]
    unfold rTimeoutFireFn scheduleReconnectFn
    cases hrt : st.rTimeout <;> cases he : st.ending <;>
      cases ht : st.transport <;> cases hr : st.reconnectTimer <;>
        simp [hrt, he, ht, hr]
  · simp only [exec]
    unfold untrackedReconnectFireFn getSeqIDWrapperFn
    split_ifs <;> simp
  · intro msg
    simp only [exec]
    unfold postGuardRejectFn
    split_ifs <;> simp [emitAuth_cursor, emitAuth_token]
  · intro msg
    simp only [exec]
    unfold bootstrapDoneFn
    cases hm1 : matchNotLoggedIn msg <;>
      cases hm2 : matchBlockedTheLogin msg <;>
        split_ifs <;>
          simp [hm1, hm2, emitAuth_cursor, emitAuth_token]
  · intro hac hcy
    simp only [exec]
    unfold forceCycleFn delayedReconnectFn endQuietlyFn
    simp [hac, hcy]
  · intro hst
    simp only [exec]
    unfold stopListeningFn delayedReconnectFn endQuietlyFn
    cases hras : st.reconnectAfterStop <;> simp [hst, hras]

/-- Witness for the amended C6 at the cursor-holding state: its forced-cycle
conjunct applied with the armed-and-idle hypotheses discharged. -/
theorem C6_session_fields_across_cycles_witness :
    stC6.autoCycleTimer = true
    ∧ (exec gNone .cycleTimerFire stC6).1.syncToken = none :=
  ⟨rfl, ((C6_session_fields_across_cycles gNone stC6).2.2.2.2.2.2.2.2.2.1
    rfl rfl).2⟩


/-- A task-response frame envelope: the outer payload carries the request id
and a JSON-in-JSON `payload` string. -/
def taskFrame (rid : Json) (pl : String) : Json :=
  .obj [("request_id", rid), ("payload", .str pl)]

/-- A state whose Pending Task Table holds one entry, request id 7, task kind
`"t"`, callback 0. -/
def stTask : St := { stBase with tasks := [(Json.num 7, ⟨"t", 0⟩)] }

/-- Counterexample to C8: two task-response frames carrying the same request
id 7 invoke the stored callback twice — the decoder neither removes the
table entry (the state is unchanged) nor guards against repeat invocation. -/
theorem C8_counterexample :
    countCbTask 0
      (run gNone [.msgFrame "/ls_resp" (some (taskFrame (.num 7) "null")),
                  .msgFrame "/ls_resp" (some (taskFrame (.num 7) "null"))]
        stTask).2 = 2
    ∧ (run gNone [.msgFrame "/ls_resp" (some (taskFrame (.num 7) "null")),
                  .msgFrame "/ls_resp" (some (taskFrame (.num 7) "null"))]
        stTask).1.tasks = stTask.tasks := by
  constructor
  · decide
  · rfl

/-- C8 as amended: for a task-response frame whose inner payload parses — if
the embedded request id is absent from the Pending Task Table, no callback is
invoked and no event is produced; if it is present, the stored callback is
invoked exactly once per such frame, with the error sentinel when result
decoding fails and otherwise with the decoded result merged with the task
kind and request id; but the entry is not removed and no repeat-guard
exists, so each further frame carrying the same request id invokes the
callback again (twice across two such frames). -/
theorem C8_task_response_dispatch (g : String → Json → Option Json) (st : St)
    (rid : Json) (pl : String) (p : Json) (hend : st.ending = false)
    (hp : jsonParse pl = some p) :
    (st.tasks.find? (fun e => Json.beq e.1 rid) = none →
      exec g (.msgFrame "/ls_resp" (some (taskFrame rid pl))) st = (st, []))
    ∧ (∀ (k : Json) (e : TaskEntry),
        st.tasks.find? (fun e2 => Json.beq e2.1 rid) = some (k, e) →
        exec g (.msgFrame "/ls_resp" (some (taskFrame rid pl))) st
          = (st, [Act.cbTask e.callback
              (match g e.type p with
               | none => CbArg.errSentinel
               | some d => CbArg.okResult e.type rid d)]))
    ∧ (∀ (k : Json) (e : TaskEntry),
        st.tasks.find? (fun e2 => Json.beq e2.1 rid) = some (k, e) →
        countCbTask e.callback
          (run g [.msgFrame "/ls_resp" (some (taskFrame rid pl)),
                  .msgFrame "/ls_resp" (some (taskFrame rid pl))] st).2 = 2) := by
  have hbase : ∀ res : Option (Json × TaskEntry),
      st.tasks.find? (fun e2 => Json.beq e2.1 rid) = res →
      exec g (.msgFrame "/ls_resp" (some (taskFrame rid pl))) st
        = (st, match res with
               | none => []
               | some (_, e) =>
                   [Act.cbTask e.callback
                     (match g e.type p with
                      | none => CbArg.errSentinel
                      | some d => CbArg.okResult e.type rid d)]) := by
    intro res hres
    simp only [exec]
    unfold handleFrameFn handleFrameBody taskFrame
    simp [hend, Json.get, coerceStringOpt, Json.coerceString, hp, hres]
    cases res with
    | none => simp
    | some ke =>
        cases hg : g ke.2.type p <;> simp [hg]
  refine ⟨?_, ?_, ?_⟩
  · intro hres
    simpa using hbase none hres
  · intro k e hres
    simpa using hbase (some (k, e)) hres
  · intro k e hres
    have h1 := hbase (some (k, e)) hres
    simp only [run, h1]
    cases hg : g e.type p <;>
      simp [hg, countCbTask, List.countP_cons]

/-- Witness for the amended C8: the single entry is found and its callback
invoked once with the error sentinel (the trivial decoder yields none). -/
theorem C8_task_response_dispatch_witness :
    jsonParse "null" = some Json.null
    ∧ exec gNone (.msgFrame "/ls_resp" (some (taskFrame (.num 7) "null"))) stTask
        = (stTask, [Act.cbTask 0 CbArg.errSentinel]) :=
  ⟨rfl, by
    simpa using
      (C8_task_response_dispatch gNone stTask (.num 7) "null" .null rfl
        rfl).2.1 (Json.num 7) ⟨"t", 0⟩ rfl⟩
